import Mathlib

/-!
Shallow embedding of the referral / credit / XP / badge reward ledger of the
vynnbknd backend (src/src/models/User.js, src/src/services/badgeService.js,
src/src/routes/auth.js and the referral routes file).

Modelling conventions:
* Mongo ObjectIds are modelled as `Nat` (value equality, matching the
  `toString()` / Mongoose-array value comparisons used by the source).
* JS numbers holding non-negative integer quantities (xp, credits, counters)
  are modelled as `Nat`; the gift-route amount, which arrives from a JSON
  body and is compared with `<= 0`, is modelled as `Int`.
* `Date` fields (timestamps, `referredAt`) carry no logic in the claims and
  are omitted.
* A thrown JS error is modelled as `Except.error msg`; the error branch
  produces no new state, which encodes "error raised before any mutation".
* Database randomness (referral-code draws) is passed in explicitly as a
  list of candidate draws; the `findOne` uniqueness probe is passed in as
  the list of codes already present in the collection.
-/

namespace Vynn

/-- One entry of `creditHistory` (User.js schema); the `timestamp` field is
omitted as no claim mentions it. -/
structure CreditEntry where
  amount : Nat
  type : String
  source : String
  description : String
  relatedItem : Option Nat
deriving Repr, DecidableEq

/-- One entry of `referrals` (User.js schema); `referredAt` omitted. -/
structure ReferralEntry where
  user : Nat
  codeUsed : String
  rewardClaimed : Bool
deriving Repr, DecidableEq

/-- The `referralStats` sub-document of the user schema. -/
structure ReferralStats where
  totalReferrals : Nat
  activeReferrals : Nat
  totalXPEarned : Nat
  totalCreditsEarned : Nat
  referralClicks : Nat
deriving Repr, DecidableEq

/-- The fields of the User document that the ledger, registry, reward engine
and badge sync read or write. -/
structure User where
  uid : Nat
  username : String
  isPremium : Bool
  xp : Nat
  level : Nat
  credits : Nat
  creditHistory : List CreditEntry
  badges : List Nat
  referralCode : Option String
  premiumReferralCode : Option String
  referrals : List ReferralEntry
  referralStats : ReferralStats
  discordId : Option Nat
deriving Repr, DecidableEq

/-- `calculateLevel` (User.js): `Math.floor(Math.sqrt(this.xp / 100)) + 1`.
For natural `xp`, `⌊√(xp/100)⌋ = Nat.sqrt (xp / 100)`. -/
def calculateLevel (xp : Nat) : Nat :=
  Nat.sqrt (xp / 100) + 1

/-- `addXP` (User.js): `xp += amount; level = calculateLevel()`. -/
def addXP (amount : Nat) (u : User) : User :=
  { u with xp := u.xp + amount, level := calculateLevel (u.xp + amount) }

/-- `addCredits` (User.js): `credits += amount`, push an `earned` history
record, and when `source == 'referral'` also bump
`referralStats.totalCreditsEarned`. -/
def addCredits (amount : Nat) (source description : String)
    (relatedItem : Option Nat) (u : User) : User :=
  { u with
    credits := u.credits + amount,
    creditHistory := u.creditHistory ++
      [⟨amount, "earned", source, description, relatedItem⟩],
    referralStats :=
      if source == "referral" then
        { u.referralStats with
          totalCreditsEarned := u.referralStats.totalCreditsEarned + amount }
      else u.referralStats }

/-- `spendCredits` (User.js): throws `Insufficient credits` when
`credits < amount`, before any mutation; otherwise `credits -= amount` and
push a `{type:'spent', source:'purchase'}` record. -/
def spendCredits (amount : Nat) (relatedItem : Option Nat)
    (description : String) (u : User) : Except String User :=
  if u.credits < amount then
    Except.error "Insufficient credits"
  else
    Except.ok
      { u with
        credits := u.credits - amount,
        creditHistory := u.creditHistory ++
          [⟨amount, "spent", "purchase", description, relatedItem⟩] }

/-- `addReferral` (User.js): no-op when the referred user id is already in
`referrals` (compared by id value, as `r.user.toString() === userId.toString()`);
otherwise push `{user, codeUsed, rewardClaimed: true}` and bump
`totalReferrals` and `activeReferrals` by one. -/
def addReferral (userId : Nat) (codeUsed : String) (u : User) : User :=
  if u.referrals.any (fun r => r.user == userId) then u
  else
    { u with
      referrals := u.referrals ++ [⟨userId, codeUsed, true⟩],
      referralStats :=
        { u.referralStats with
          totalReferrals := u.referralStats.totalReferrals + 1,
          activeReferrals := u.referralStats.activeReferrals + 1 } }

/-- A concrete user used to instantiate witness theorems: 10 credits, one
prior referral of user 5, otherwise fresh. -/
def sampleUser : User :=
  { uid := 1, username := "w", isPremium := false, xp := 0, level := 1,
    credits := 10, creditHistory := [], badges := [],
    referralCode := none, premiumReferralCode := none,
    referrals := [⟨5, "VYNN-AAAA", true⟩],
    referralStats := ⟨1, 1, 0, 0, 0⟩, discordId := none }

/-- CLAIM C2: `spendCredits` errors with `Insufficient credits` exactly when
`credits < amount`, produces no mutated state on that error, and on success
decreases `credits` by `amount` and appends exactly one
`{type:'spent', source:'purchase'}` history record. -/
theorem spendCredits_insufficient_iff (a : Nat) (ri : Option Nat) (d : String)
    (u : User) :
    (spendCredits a ri d u = Except.error "Insufficient credits" ↔
      u.credits < a) ∧
    (a ≤ u.credits →
      spendCredits a ri d u = Except.ok
        { u with
          credits := u.credits - a,
          creditHistory := u.creditHistory ++ [⟨a, "spent", "purchase", d, ri⟩] }) := by
  constructor
  · constructor
    · intro h
      by_contra hc
      simp [spendCredits, hc] at h
    · intro h
      simp [spendCredits, h]
  · intro h
    have hc : ¬ u.credits < a := not_lt.mpr h
    simp [spendCredits, hc]

/-- Witness for C2: `sampleUser` (10 credits) cannot spend 25, and spending 5
succeeds with balance 5 and one `spent`/`purchase` record appended. -/
theorem spendCredits_insufficient_iff_witness :
    spendCredits 25 none "x" sampleUser = Except.error "Insufficient credits" ∧
    spendCredits 5 none "x" sampleUser = Except.ok
      { sampleUser with
        credits := 5,
        creditHistory := [⟨5, "spent", "purchase", "x", none⟩] } := by
  constructor
  · exact (spendCredits_insufficient_iff 25 none "x" sampleUser).1.mpr (by decide)
  · have h := (spendCredits_insufficient_iff 5 none "x" sampleUser).2 (by decide)
    simpa [sampleUser] using h

/-- CLAIM C3: for `a > 0`, `addCredits a` then `spendCredits a` restores the
credit balance and appends exactly two history records, one `earned` and one
`spent`. -/
theorem addCredits_spendCredits_roundTrip (a : Nat) (ha : 0 < a)
    (src d d2 : String) (ri ri2 : Option Nat) (u : User) :
    ∃ u2, spendCredits a ri2 d2 (addCredits a src d ri u) = Except.ok u2 ∧
      u2.credits = u.credits ∧
      u2.creditHistory = u.creditHistory ++
        [⟨a, "earned", src, d, ri⟩, ⟨a, "spent", "purchase", d2, ri2⟩] := by
  have hc : ¬ (addCredits a src d ri u).credits < a := by
    simp [addCredits]
  have hok : spendCredits a ri2 d2 (addCredits a src d ri u) =
      Except.ok
        { addCredits a src d ri u with
          credits := (addCredits a src d ri u).credits - a,
          creditHistory := (addCredits a src d ri u).creditHistory ++
            [⟨a, "spent", "purchase", d2, ri2⟩] } := by
    simp [spendCredits, hc]
  refine ⟨_, hok, ?_, ?_⟩ <;> simp [addCredits]

/-- Witness for C3 with `a = 7` on `sampleUser` (3 prior credits would also
do; `sampleUser` holds 10). -/
theorem addCredits_spendCredits_roundTrip_witness :
    (0:Nat) < 7 ∧
    ∃ u2, spendCredits 7 none "buy"
        (addCredits 7 "referral" "gift" none sampleUser) = Except.ok u2 ∧
      u2.credits = sampleUser.credits ∧
      u2.creditHistory = sampleUser.creditHistory ++
        [⟨7, "earned", "referral", "gift", none⟩,
         ⟨7, "spent", "purchase", "buy", none⟩] :=
  ⟨by decide,
   addCredits_spendCredits_roundTrip 7 (by decide) "referral" "gift" "buy"
     none none sampleUser⟩

/-- CLAIM C7: `addReferral` keeps at most one `referrals` entry per referred
user: if the id is already present the call changes nothing at all, and
otherwise it appends exactly one `{user, codeUsed, rewardClaimed:=true}`
entry and bumps `totalReferrals` and `activeReferrals` each by one. -/
theorem addReferral_at_most_once (uid : Nat) (code : String) (u : User) :
    (u.referrals.any (fun r => r.user == uid) = true →
      addReferral uid code u = u) ∧
    (u.referrals.any (fun r => r.user == uid) = false →
      (addReferral uid code u).referrals =
          u.referrals ++ [⟨uid, code, true⟩] ∧
      (addReferral uid code u).referralStats.totalReferrals =
          u.referralStats.totalReferrals + 1 ∧
      (addReferral uid code u).referralStats.activeReferrals =
          u.referralStats.activeReferrals + 1) := by
  constructor
  · intro h
    simp [addReferral, h]
  · intro h
    simp [addReferral, h]

/-- Witness for C7: `sampleUser` already referred user 5, so re-adding 5 is a
no-op, while adding the fresh user 9 appends one entry and bumps both
counters from 1 to 2. -/
theorem addReferral_at_most_once_witness :
    addReferral 5 "VYNN-AAAA" sampleUser = sampleUser ∧
    (addReferral 9 "VYNN-BBBB" sampleUser).referrals =
        sampleUser.referrals ++ [⟨9, "VYNN-BBBB", true⟩] ∧
    (addReferral 9 "VYNN-BBBB" sampleUser).referralStats.totalReferrals =
        sampleUser.referralStats.totalReferrals + 1 ∧
    (addReferral 9 "VYNN-BBBB" sampleUser).referralStats.activeReferrals =
        sampleUser.referralStats.activeReferrals + 1 :=
  ⟨(addReferral_at_most_once 5 "VYNN-AAAA" sampleUser).1 (by decide),
   (addReferral_at_most_once 9 "VYNN-BBBB" sampleUser).2 (by decide)⟩

/-! ### Referral Code Registry (User.js: generateReferralCode,
generatePremiumReferralCode, and the premium branch of the pre-save hook) -/

/-- The candidate alphabet of `generateReferralCode` (User.js):
`'ABCDEFGHIJKLMNOPQRSTUVWXYZ0123456789'`. -/
def referralCharacters : List Char :=
  "ABCDEFGHIJKLMNOPQRSTUVWXYZ0123456789".toList

/-- One random draw of the code loop: four indices into the 36-character
alphabet, as produced by `Math.floor(Math.random() * characters.length)`. -/
abbrev Draw : Type := Fin 36 × Fin 36 × Fin 36 × Fin 36

/-- A candidate code: `'VYNN-'` plus the four drawn characters. -/
def mkCandidateCode (d : Draw) : String :=
  "VYNN-" ++ String.mk
    [referralCharacters.getD d.1.val 'A', referralCharacters.getD d.2.1.val 'A',
     referralCharacters.getD d.2.2.1.val 'A', referralCharacters.getD d.2.2.2.val 'A']

/-- `generateReferralCode` (User.js): return the code unchanged if one is
already set; otherwise draw candidates until one is absent from the user
collection (`existing`), assign it and return it. The unbounded re-roll loop
is modelled by an explicit list of draws; `none` models non-termination of
the loop (every candidate collided). -/
def generateReferralCode (existing : List String) (attempts : List Draw)
    (u : User) : Option (String × User) :=
  match u.referralCode with
  | some c => some (c, u)
  | none =>
    match attempts.find? (fun d => decide (mkCandidateCode d ∉ existing)) with
    | some d =>
        some (mkCandidateCode d, { u with referralCode := some (mkCandidateCode d) })
    | none => none

/-- JS `String.prototype.toUpperCase` restricted to the character-wise ASCII
case mapping the usernames of this system use (`/^[a-z0-9_]+$/`). -/
def toUpperCase (s : String) : String := String.mk (s.data.map Char.toUpper)

/-- The Mongoose `lowercase: true` setter declared on the
`premiumReferralCode` schema path (User.js): every value written to the
field is stored lowercased (character-wise ASCII case mapping). -/
def applyLowercaseSetter (s : String) : String := String.mk (s.data.map Char.toLower)

/-- `generatePremiumReferralCode` (User.js method): `null` when the user is
not premium or has no username; otherwise derive `VYNN-<USERNAME>`, return
`null` without assigning when that code already belongs to a different user
(`otherCodes` holds the stored premium codes of all other users), else
assign. The schema setter lowercases the stored field value, while the
method returns the raw uppercase code. -/
def generatePremiumReferralCode (otherCodes : List String) (u : User) :
    Option String × User :=
  if !u.isPremium || u.username.isEmpty then (none, u)
  else
    let code := "VYNN-" ++ toUpperCase u.username
    if applyLowercaseSetter code ∈ otherCodes then (none, u)
    else (some code, { u with premiumReferralCode := some (applyLowercaseSetter code) })

/-- The premium-code branch of the `pre('save')` hook (User.js): when the
user is premium, lacks a premium code and has a username, derive
`VYNN-<USERNAME>` and assign it unless any document already holds it
(`existingCodes` are the stored premium codes). The stored value passes
through the schema's lowercase setter. -/
def preSavePremiumCode (existingCodes : List String) (u : User) : User :=
  if u.isPremium && u.premiumReferralCode.isNone then
    if u.username.isEmpty then u
    else
      let code := "VYNN-" ++ toUpperCase u.username
      if applyLowercaseSetter code ∈ existingCodes then u
      else { u with premiumReferralCode := some (applyLowercaseSetter code) }
  else u

/-- Premium user `nova`, with no premium code assigned yet. -/
def nova : User := { sampleUser with uid := 3, username := "nova", isPremium := true }

/-- `nova` after their premium code has been persisted. -/
def novaOn : User := { nova with premiumReferralCode := some "vynn-nova" }

/-- Counterexample for C4: toggling premium on for username `nova` persists
`vynn-nova` (the schema lowercase setter rewrites the generator's
`VYNN-NOVA`), and toggling premium off leaves the code in place, so a
non-premium user still holds a premium code. -/
theorem premiumReferralCode_claim_counterexample :
    (preSavePremiumCode [] nova).premiumReferralCode = some "vynn-nova" ∧
    (preSavePremiumCode [] nova).premiumReferralCode ≠ some "VYNN-NOVA" ∧
    (preSavePremiumCode []
        { preSavePremiumCode [] nova with isPremium := false }).isPremium = false ∧
    (preSavePremiumCode []
        { preSavePremiumCode [] nova with isPremium := false }).premiumReferralCode =
      some "vynn-nova" ∧
    (generatePremiumReferralCode [] nova).2.premiumReferralCode = some "vynn-nova" := by
  decide

/-- C4 as amended: once a premium user with a username saves without a
colliding code, the persisted `premiumReferralCode` is the lowercased
`vynn-<username>` (the generator's uppercase `VYNN-<USERNAME>` rewritten by
the schema's lowercase setter), and a save by any non-premium user never
clears the field — the code exists if the user is or ever was premium, not
iff currently premium. -/
theorem premiumReferralCode_lowercased_persistent (u : User) (exs : List String)
    (hp : u.isPremium = true) (hc : u.premiumReferralCode = none)
    (hu : u.username.isEmpty = false)
    (hcol : applyLowercaseSetter ("VYNN-" ++ toUpperCase u.username) ∉ exs) :
    (preSavePremiumCode exs u).premiumReferralCode =
      some (applyLowercaseSetter ("VYNN-" ++ toUpperCase u.username)) ∧
    ∀ v : User,
      (preSavePremiumCode exs { v with isPremium := false }).premiumReferralCode =
        v.premiumReferralCode := by
  constructor
  · simp [preSavePremiumCode, hp, hc, hu, hcol]
  · intro v
    simp [preSavePremiumCode]

/-- Witness for the amended C4 at `nova`: the persisted code is the
lowercased one, and a premium-off save leaves `novaOn`'s code untouched. -/
theorem premiumReferralCode_lowercased_persistent_witness :
    (preSavePremiumCode [] nova).premiumReferralCode =
      some (applyLowercaseSetter ("VYNN-" ++ toUpperCase nova.username)) ∧
    (preSavePremiumCode [] { novaOn with isPremium := false }).premiumReferralCode =
      novaOn.premiumReferralCode := by
  have h := premiumReferralCode_lowercased_persistent nova [] (by decide)
    (by decide) (by decide) (by decide)
  exact ⟨h.1, h.2 novaOn⟩

/-- CLAIM C6: `generateReferralCode` is idempotent — once a call has assigned
a code, every later call returns that same code and leaves the user
untouched — and a fresh draw never collides with the collection: the
returned code is absent from the probed collection, so two distinct users
(the second probing a collection that contains the first's code) never
receive the same code. -/
theorem generateReferralCode_idempotent_unique
    (ex1 ex2 : List String) (ats1 ats2 : List Draw) (u1 u2 : User)
    (c1 c2 : String) (v1 v2 : User)
    (h1 : u1.referralCode = none)
    (hg1 : generateReferralCode ex1 ats1 u1 = some (c1, v1))
    (h2 : u2.referralCode = none)
    (hg2 : generateReferralCode ex2 ats2 u2 = some (c2, v2))
    (hmem : c1 ∈ ex2) :
    (∀ exs ats, generateReferralCode exs ats v1 = some (c1, v1)) ∧
    c2 ∉ ex2 ∧
    c2 ≠ c1 := by
  simp only [generateReferralCode, h1] at hg1
  simp only [generateReferralCode, h2] at hg2
  cases hf1 : ats1.find? (fun d => decide (mkCandidateCode d ∉ ex1)) with
  | none => rw [hf1] at hg1; exact absurd hg1 (by simp)
  | some d1 =>
    rw [hf1] at hg1
    cases hf2 : ats2.find? (fun d => decide (mkCandidateCode d ∉ ex2)) with
    | none => rw [hf2] at hg2; exact absurd hg2 (by simp)
    | some d2 =>
      rw [hf2] at hg2
      simp only [Option.some.injEq, Prod.mk.injEq] at hg1 hg2
      obtain ⟨hc1, hv1⟩ := hg1
      obtain ⟨hc2, hv2⟩ := hg2
      have hfresh2 : mkCandidateCode d2 ∉ ex2 := by
        have hp2 := List.find?_some hf2
        simpa using hp2
      subst hc1
      subst hc2
      refine ⟨?_, hfresh2, ?_⟩
      · intro exs ats
        rw [← hv1]
        rfl
      · intro he
        rw [he] at hfresh2
        exact hfresh2 hmem

/-- Concrete draws for the C6 witness: all-zero indices give `VYNN-AAAA`,
all-one indices give `VYNN-BBBB`. -/
def drawA : Draw := (0, 0, 0, 0)

/-- See `drawA`. -/
def drawB : Draw := (1, 1, 1, 1)

/-- A second user with no referral code, distinct from `sampleUser`. -/
def userB : User := { sampleUser with uid := 2 }

/-- Witness for C6: `sampleUser` draws `VYNN-AAAA` against an empty
collection; `userB`, probing a collection already holding `VYNN-AAAA`,
re-rolls and receives `VYNN-BBBB`; repeat calls on the first user return
`VYNN-AAAA` unchanged. -/
theorem generateReferralCode_idempotent_unique_witness :
    generateReferralCode ["VYNN-ZZZZ"] []
        { sampleUser with referralCode := some "VYNN-AAAA" } =
      some ("VYNN-AAAA", { sampleUser with referralCode := some "VYNN-AAAA" }) ∧
    "VYNN-BBBB" ∉ (["VYNN-AAAA"] : List String) ∧
    "VYNN-BBBB" ≠ "VYNN-AAAA" := by
  have h := generateReferralCode_idempotent_unique [] ["VYNN-AAAA"] [drawA]
    [drawA, drawB] sampleUser userB "VYNN-AAAA" "VYNN-BBBB"
    { sampleUser with referralCode := some "VYNN-AAAA" }
    { userB with referralCode := some "VYNN-BBBB" }
    (by decide) (by decide) (by decide) (by decide) (by decide)
  exact ⟨h.1 ["VYNN-ZZZZ"] [], h.2.1, h.2.2⟩

/-! ### Credit gifting (POST /api/referral/credits/gift, referral routes) -/

/-- The gift route: reject non-positive amounts, non-premium senders,
underfunded senders, unknown receivers and self-gifts, in that order, each
before any balance mutation; then `sender.spendCredits` and
`receiver.addCredits(amount, 'admin', ...)`. `receiverLookup` is the result
of the `findOne({username})` query. -/
def giftCredits (amount : Int) (sender : User) (receiverLookup : Option User) :
    Except String (User × User) :=
  if amount ≤ 0 then Except.error "Invalid amount"
  else if !sender.isPremium then Except.error "Gifting is a Premium feature"
  else if (sender.credits : Int) < amount then Except.error "Insufficient credits"
  else
    match receiverLookup with
    | none => Except.error "User not found"
    | some receiver =>
      if receiver.uid == sender.uid then
        Except.error "Cannot gift credits to yourself"
      else
        match spendCredits amount.toNat none ("Gift to " ++ receiver.username) sender with
        | Except.error e => Except.error e
        | Except.ok s2 =>
            Except.ok (s2,
              addCredits amount.toNat "admin" ("Gift from " ++ sender.username)
                none receiver)

/-- Inversion of a successful gift: every check passed and the two balances
moved by exactly the requested amount. -/
theorem giftCredits_ok_inv (amount : Int) (sender receiver : User)
    (s2 r2 : User)
    (hok : giftCredits amount sender (some receiver) = Except.ok (s2, r2)) :
    0 < amount ∧ sender.isPremium = true ∧ amount ≤ (sender.credits : Int) ∧
    receiver.uid ≠ sender.uid ∧
    s2.credits = sender.credits - amount.toNat ∧
    r2.credits = receiver.credits + amount.toNat := by
  by_cases h0 : amount ≤ 0
  · simp [giftCredits, h0] at hok
  by_cases hp : sender.isPremium
  · by_cases hf : (sender.credits : Int) < amount
    · simp [giftCredits, h0, hp, hf] at hok
    · by_cases hs : receiver.uid = sender.uid
      · simp [giftCredits, h0, hp, hf, hs] at hok
      · have hsp : ¬ sender.credits < amount.toNat := by
          rw [not_lt] at hf ⊢
          exact Int.toNat_le.mpr hf
        simp only [giftCredits, if_neg h0, hp, Bool.not_true, Bool.false_eq_true,
          if_false, if_neg hf, beq_iff_eq, if_neg hs, spendCredits, if_neg hsp,
          Except.ok.injEq, Prod.mk.injEq] at hok
        obtain ⟨hs2, hr2⟩ := hok
        refine ⟨lt_of_not_le h0, by simp [hp], not_lt.mp hf, hs, ?_, ?_⟩
        · rw [← hs2]
        · rw [← hr2]; simp [addCredits]
  · simp [giftCredits, h0, hp] at hok

/-- CLAIM C10: the premium gift route conserves credits — a successful gift
moves exactly the requested amount from sender to receiver, preserving the
sum of the two balances — and every gift with a non-positive amount, a
non-premium sender, an underfunded sender, an unknown receiver or a
self-receiver is rejected with an error before either balance is mutated
(the error branches produce no successor state). -/
theorem giftCredits_conservation (amount : Int) (sender : User)
    (rcv : Option User) :
    (∀ receiver s2 r2, rcv = some receiver →
      giftCredits amount sender rcv = Except.ok (s2, r2) →
      s2.credits + r2.credits = sender.credits + receiver.credits ∧
      (s2.credits : Int) = (sender.credits : Int) - amount ∧
      (r2.credits : Int) = (receiver.credits : Int) + amount) ∧
    ((amount ≤ 0 ∨ sender.isPremium = false ∨ (sender.credits : Int) < amount ∨
        rcv = none ∨ (∃ r, rcv = some r ∧ r.uid = sender.uid)) →
      ∀ p, giftCredits amount sender rcv ≠ Except.ok p) := by
  constructor
  · rintro receiver s2 r2 rfl hok
    obtain ⟨h0, hp, hf, hs, hs2, hr2⟩ := giftCredits_ok_inv amount sender
      receiver s2 r2 hok
    refine ⟨?_, ?_, ?_⟩ <;> omega
  · rintro (h0 | hp | hf | rfl | ⟨r, rfl, hr⟩) p hok
    · simp [giftCredits, h0] at hok
    · by_cases h0 : amount ≤ 0
      · simp [giftCredits, h0] at hok
      · simp [giftCredits, h0, hp] at hok
    · by_cases h0 : amount ≤ 0
      · simp [giftCredits, h0] at hok
      · by_cases hp : sender.isPremium
        · simp [giftCredits, h0, hp, hf] at hok
        · simp [giftCredits, h0, hp] at hok
    · by_cases h0 : amount ≤ 0
      · simp [giftCredits, h0] at hok
      · by_cases hp : sender.isPremium
        · by_cases hf : (sender.credits : Int) < amount
          · simp [giftCredits, h0, hp, hf] at hok
          · simp [giftCredits, h0, hp, hf] at hok
        · simp [giftCredits, h0, hp] at hok
    · obtain ⟨s2, r2⟩ := p
      obtain ⟨-, -, -, hne, -, -⟩ := giftCredits_ok_inv amount sender r s2 r2 hok
      exact hne hr

/-- Witness for C10: premium `novaOn` (10 credits) gifting 4 to `userB`
(10 credits) succeeds and conserves the total of 20, while non-premium
`sampleUser` is rejected. -/
theorem giftCredits_conservation_witness :
    ∃ s2 r2, giftCredits 4 novaOn (some userB) = Except.ok (s2, r2) ∧
      s2.credits + r2.credits = novaOn.credits + userB.credits ∧
      giftCredits 4 sampleUser (some userB) ≠
        Except.ok (sampleUser, userB) := by
  obtain ⟨s2, r2, hok⟩ : ∃ s2 r2,
      giftCredits 4 novaOn (some userB) = Except.ok (s2, r2) := by
    exact ⟨_, _, rfl⟩
  refine ⟨s2, r2, hok, ?_, ?_⟩
  · exact ((giftCredits_conservation 4 novaOn (some userB)).1 userB s2 r2 rfl hok).1
  · exact (giftCredits_conservation 4 sampleUser (some userB)).2
      (Or.inr (Or.inl (by decide))) (sampleUser, userB)

/-! ### Reward Rule Engine and Badge Sync (badgeService.js) -/

/-- A badge document: its ObjectId (modelled as the position in the seeded
catalog), `name`, `slug` and `systemKey` (Badge model / initSystemBadges). -/
structure Badge where
  bid : Nat
  name : String
  slug : String
  systemKey : String
deriving Repr, DecidableEq

/-- The system badge catalog seeded by `initSystemBadges` (badgeService.js),
ids assigned by seeding order. -/
def stdBadgeDb : List Badge :=
  [⟨0, "Discord Member", "discord-member", "discord_member"⟩,
   ⟨1, "Server Booster", "discord-booster", "discord_booster"⟩,
   ⟨2, "Verified", "verified", "verified"⟩,
   ⟨3, "Recruiter", "recruiter", "referral_recruiter"⟩,
   ⟨4, "Ambassador", "ambassador", "referral_ambassador"⟩,
   ⟨5, "Legend", "legend", "referral_legend"⟩,
   ⟨6, "Icon", "icon", "referral_icon"⟩,
   ⟨7, "Titan", "titan", "referral_titan"⟩,
   ⟨8, "Warlord", "warlord", "referral_warlord"⟩,
   ⟨9, "Emperor", "emperor", "referral_emperor"⟩,
   ⟨10, "Godlike", "godlike", "referral_godlike"⟩,
   ⟨11, "Observer", "observer", "view_observer"⟩,
   ⟨12, "Rising Star", "rising-star", "view_rising_star"⟩,
   ⟨13, "Socialite", "socialite", "view_socialite"⟩,
   ⟨14, "Influencer", "influencer", "view_influencer"⟩,
   ⟨15, "Superstar", "superstar", "view_superstar"⟩,
   ⟨16, "Celebrity", "celebrity", "view_celebrity"⟩,
   ⟨17, "Internet Sensation", "internet-sensation", "view_sensation"⟩,
   ⟨18, "World Class", "world-class", "view_world_class"⟩]

/-- `Badge.findOne({ slug })`. -/
def findBadge (db : List Badge) (slug : String) : Option Badge :=
  db.find? (fun b => b.slug == slug)

/-- One row of the hard-coded referral milestone table of
`checkReferralBadges` (badgeService.js). -/
structure Milestone where
  count : Nat
  badgeId : String
  name : String
  xp : Nat
  credits : Nat
deriving Repr, DecidableEq

/-- The `referralBadges` table (badgeService.js). -/
def referralBadges : List Milestone :=
  [⟨5, "recruiter", "Recruiter", 500, 100⟩,
   ⟨25, "ambassador", "Ambassador", 2500, 500⟩,
   ⟨100, "legend", "Legend", 10000, 2000⟩,
   ⟨500, "icon", "Icon", 25000, 5000⟩,
   ⟨1000, "titan", "Titan", 50000, 10000⟩,
   ⟨2500, "warlord", "Warlord", 100000, 25000⟩,
   ⟨5000, "emperor", "Emperor", 250000, 50000⟩,
   ⟨10000, "godlike", "Godlike", 1000000, 100000⟩]

/-- `if (milestone.xp) await user.addXP(milestone.xp)`. -/
def applyXpReward (m : Milestone) (u : User) : User :=
  if m.xp ≠ 0 then addXP m.xp u else u

/-- `if (milestone.credits) await user.addCredits(milestone.credits,
'achievement', ...)`. -/
def applyCreditReward (m : Milestone) (u : User) : User :=
  if m.credits ≠ 0 then
    addCredits m.credits "achievement" ("Milestone reward: " ++ m.name) none u
  else u

/-- The award body of one milestone: push the badge id, then grant the XP and
credit rewards (each an immediately-persisted ledger mutation). -/
def awardMilestone (m : Milestone) (bid : Nat) (u : User) : User :=
  applyCreditReward m (applyXpReward m { u with badges := u.badges ++ [bid] })

/-- One iteration of the `for (const milestone of referralBadges)` loop:
skip when below threshold, when the badge is not seeded, or when the user
already holds it (Mongoose-array `includes` is value membership); otherwise
award. -/
def checkReferralBadgesStep (db : List Badge) (total : Nat) (u : User)
    (m : Milestone) : User :=
  if m.count ≤ total then
    match findBadge db m.badgeId with
    | none => u
    | some b => if b.bid ∈ u.badges then u else awardMilestone m b.bid u
  else u

/-- `checkReferralBadges` (badgeService.js), error-free path: read
`totalReferrals` once, then run the milestone loop in table order; the final
badge-array save is the fold's result. -/
def checkReferralBadges (db : List Badge) (u : User) : User :=
  referralBadges.foldl
    (checkReferralBadgesStep db u.referralStats.totalReferrals) u

/-- The external member info consumed by the badge sync
(`getDiscordMemberInfo`, discordService.js). -/
structure MemberInfo where
  is_member : Bool
  is_booster : Bool
deriving Repr, DecidableEq

/-- The reconciliation body of `syncUserDiscordBadges` (badgeService.js):
`currentBadgeIds` is snapshotted once before both flag handlers; each flag
pushes its badge when set and absent in the snapshot, and filters it out
when clear and present in the snapshot. -/
def syncBadgesCore (memberBadge boosterBadge : Option Nat) (mi : MemberInfo)
    (badges : List Nat) : List Nat :=
  let current := badges
  let afterMember :=
    match memberBadge with
    | none => badges
    | some mb =>
      if mi.is_member then
        if mb ∈ current then badges else badges ++ [mb]
      else
        if mb ∈ current then badges.filter (fun i => decide (i ≠ mb)) else badges
  match boosterBadge with
  | none => afterMember
  | some bb =>
    if mi.is_booster then
      if bb ∈ current then afterMember else afterMember ++ [bb]
    else
      if bb ∈ current then afterMember.filter (fun i => decide (i ≠ bb))
      else afterMember

/-- `syncUserDiscordBadges` (badgeService.js): no-op without a linked
Discord id; a `null` member info (provider failure) is also a no-op; the two
system badges are fetched by `systemKey` and reconciled against the flags. -/
def syncUserDiscordBadges (memberBadge boosterBadge : Option Nat)
    (memberInfo : Option MemberInfo) (u : User) : User :=
  match u.discordId with
  | none => u
  | some _ =>
    match memberInfo with
    | none => u
    | some mi =>
      { u with badges := syncBadgesCore memberBadge boosterBadge mi u.badges }

/-- The milestone loop with a fallible badge lookup: an error thrown during
lookup aborts the rest of the loop and surfaces the committed state so far
(each completed award was already persisted by its own `addXP`/`addCredits`
saves), together with the error. -/
def checkReferralBadgesAux (lookup : String → Except String (Option Badge))
    (total : Nat) : List Milestone → User → User × Option String
  | [], u => (u, none)
  | m :: rest, u =>
    if m.count ≤ total then
      match lookup m.badgeId with
      | Except.error e => (u, some e)
      | Except.ok none => checkReferralBadgesAux lookup total rest u
      | Except.ok (some b) =>
        if b.bid ∈ u.badges then checkReferralBadgesAux lookup total rest u
        else checkReferralBadgesAux lookup total rest (awardMilestone m b.bid u)
    else checkReferralBadgesAux lookup total rest u

/-- `checkReferralBadges` with its top-level `try/catch`: the caller always
gets a state back and never an exception; a caught error only abandons the
remainder of the loop. -/
def checkReferralBadgesCaught (lookup : String → Except String (Option Badge))
    (u : User) : User :=
  (checkReferralBadgesAux lookup u.referralStats.totalReferrals
    referralBadges u).1

/-- `syncUserDiscordBadges` with its `try/catch` and a fallible
`Badge.find` for the two system badges: a thrown fetch error is caught
before any badge mutation, so the user is returned unchanged. -/
def syncUserDiscordBadgesCaught
    (badgeFetch : Except String (Option Nat × Option Nat))
    (memberInfo : Option MemberInfo) (u : User) : User :=
  match u.discordId with
  | none => u
  | some _ =>
    match memberInfo with
    | none => u
    | some mi =>
      match badgeFetch with
      | Except.error _ => u
      | Except.ok (mb, bb) =>
        { u with badges := syncBadgesCore mb bb mi u.badges }

/-- The referral branch of `POST /api/auth/register` (auth.js): record the
referral on the referrer, grant the referee 50 XP and 25 signup-bonus
credits, grant the referrer 100 XP and 50 referral credits, then run the
referral milestone check on the referrer. Returns (referrer, new user). -/
def registerWithReferral (db : List Badge) (referrer newUser : User)
    (code : String) : User × User :=
  let a1 := addReferral newUser.uid code referrer
  let b1 := addXP 50 newUser
  let b2 := addCredits 25 "signup_bonus" "Referral signup bonus" none b1
  let a2 := addXP 100 a1
  let a3 := addCredits 50 "referral" ("Referred " ++ newUser.username) none a2
  (checkReferralBadges db a3, b2)

/-! ### Helper lemmas about milestone awards -/

theorem awardMilestone_badges (m : Milestone) (bid : Nat) (u : User) :
    (awardMilestone m bid u).badges = u.badges ++ [bid] := by
  unfold awardMilestone applyCreditReward applyXpReward
  split <;> split <;> simp [addXP, addCredits]

theorem awardMilestone_totalReferrals (m : Milestone) (bid : Nat) (u : User) :
    (awardMilestone m bid u).referralStats.totalReferrals =
      u.referralStats.totalReferrals := by
  unfold awardMilestone applyCreditReward applyXpReward
  split <;> split <;> simp [addXP, addCredits]

theorem awardMilestone_xp (m : Milestone) (bid : Nat) (u : User)
    (hx : m.xp ≠ 0) : (awardMilestone m bid u).xp = u.xp + m.xp := by
  unfold awardMilestone applyCreditReward applyXpReward
  rw [if_pos hx]
  split <;> simp [addXP, addCredits]

theorem awardMilestone_credits (m : Milestone) (bid : Nat) (u : User)
    (hx : m.credits ≠ 0) :
    (awardMilestone m bid u).credits = u.credits + m.credits := by
  unfold awardMilestone applyCreditReward applyXpReward
  rw [if_pos hx]
  split <;> simp [addXP, addCredits]

theorem step_award (db : List Badge) (total : Nat) (u : User) (m : Milestone)
    (b : Badge) (hc : m.count ≤ total) (hf : findBadge db m.badgeId = some b)
    (hb : b.bid ∉ u.badges) :
    checkReferralBadgesStep db total u m = awardMilestone m b.bid u := by
  simp [checkReferralBadgesStep, hc, hf, hb]

theorem step_skip_below (db : List Badge) (total : Nat) (u : User)
    (m : Milestone) (hc : ¬ m.count ≤ total) :
    checkReferralBadgesStep db total u m = u := by
  simp [checkReferralBadgesStep, hc]

theorem step_skip_held (db : List Badge) (total : Nat) (u : User)
    (m : Milestone) (b : Badge) (hf : findBadge db m.badgeId = some b)
    (hb : b.bid ∈ u.badges) :
    checkReferralBadgesStep db total u m = u := by
  simp [checkReferralBadgesStep, hf, hb]

/-- A user at 1000 referrals who already holds the five catch-up badges is a
fixpoint of the referral milestone check. -/
theorem checkReferralBadges_fixpoint (r : User)
    (ht : r.referralStats.totalReferrals = 1000)
    (m3 : 3 ∈ r.badges) (m4 : 4 ∈ r.badges) (m5 : 5 ∈ r.badges)
    (m6 : 6 ∈ r.badges) (m7 : 7 ∈ r.badges) :
    checkReferralBadges stdBadgeDb r = r := by
  unfold checkReferralBadges
  rw [ht]
  simp only [referralBadges, List.foldl]
  rw [step_skip_held stdBadgeDb 1000 r
    ⟨5, "recruiter", "Recruiter", 500, 100⟩
    ⟨3, "Recruiter", "recruiter", "referral_recruiter"⟩ rfl m3]
  rw [step_skip_held stdBadgeDb 1000 r
    ⟨25, "ambassador", "Ambassador", 2500, 500⟩
    ⟨4, "Ambassador", "ambassador", "referral_ambassador"⟩ rfl m4]
  rw [step_skip_held stdBadgeDb 1000 r
    ⟨100, "legend", "Legend", 10000, 2000⟩
    ⟨5, "Legend", "legend", "referral_legend"⟩ rfl m5]
  rw [step_skip_held stdBadgeDb 1000 r
    ⟨500, "icon", "Icon", 25000, 5000⟩
    ⟨6, "Icon", "icon", "referral_icon"⟩ rfl m6]
  rw [step_skip_held stdBadgeDb 1000 r
    ⟨1000, "titan", "Titan", 50000, 10000⟩
    ⟨7, "Titan", "titan", "referral_titan"⟩ rfl m7]
  rw [step_skip_below stdBadgeDb 1000 r
    ⟨2500, "warlord", "Warlord", 100000, 25000⟩ (by norm_num)]
  rw [step_skip_below stdBadgeDb 1000 r
    ⟨5000, "emperor", "Emperor", 250000, 50000⟩ (by norm_num)]
  rw [step_skip_below stdBadgeDb 1000 r
    ⟨10000, "godlike", "Godlike", 1000000, 100000⟩ (by norm_num)]

/-- CLAIM C1: a user fast-forwarded to `totalReferrals = 1000` who holds none
of the five referral badges at or below that threshold receives Recruiter,
Ambassador, Legend, Icon and Titan in one `checkReferralBadges` pass, each
appended exactly once (Warlord and above are not awarded), and a second
immediate pass changes nothing at all. -/
theorem checkReferralBadges_catchup (u : User)
    (ht : u.referralStats.totalReferrals = 1000)
    (h3 : 3 ∉ u.badges) (h4 : 4 ∉ u.badges) (h5 : 5 ∉ u.badges)
    (h6 : 6 ∉ u.badges) (h7 : 7 ∉ u.badges) :
    (checkReferralBadges stdBadgeDb u).badges = u.badges ++ [3, 4, 5, 6, 7] ∧
    checkReferralBadges stdBadgeDb (checkReferralBadges stdBadgeDb u) =
      checkReferralBadges stdBadgeDb u := by
  have hm1 : findBadge stdBadgeDb "recruiter" =
      some ⟨3, "Recruiter", "recruiter", "referral_recruiter"⟩ := by rfl
  have hm2 : findBadge stdBadgeDb "ambassador" =
      some ⟨4, "Ambassador", "ambassador", "referral_ambassador"⟩ := by rfl
  have hm3 : findBadge stdBadgeDb "legend" =
      some ⟨5, "Legend", "legend", "referral_legend"⟩ := by rfl
  have hm4 : findBadge stdBadgeDb "icon" =
      some ⟨6, "Icon", "icon", "referral_icon"⟩ := by rfl
  have hm5 : findBadge stdBadgeDb "titan" =
      some ⟨7, "Titan", "titan", "referral_titan"⟩ := by rfl
  have hrun : checkReferralBadges stdBadgeDb u =
      awardMilestone ⟨1000, "titan", "Titan", 50000, 10000⟩ 7
        (awardMilestone ⟨500, "icon", "Icon", 25000, 5000⟩ 6
          (awardMilestone ⟨100, "legend", "Legend", 10000, 2000⟩ 5
            (awardMilestone ⟨25, "ambassador", "Ambassador", 2500, 500⟩ 4
              (awardMilestone ⟨5, "recruiter", "Recruiter", 500, 100⟩ 3 u)))) := by
    unfold checkReferralBadges
    rw [ht]
    simp only [referralBadges, List.foldl]
    rw [step_award stdBadgeDb 1000 u
      ⟨5, "recruiter", "Recruiter", 500, 100⟩ _ (by norm_num) hm1 h3]
    rw [step_award stdBadgeDb 1000 _
      ⟨25, "ambassador", "Ambassador", 2500, 500⟩ _ (by norm_num) hm2
      (by simp [awardMilestone_badges, h4])]
    rw [step_award stdBadgeDb 1000 _
      ⟨100, "legend", "Legend", 10000, 2000⟩ _ (by norm_num) hm3
      (by simp [awardMilestone_badges, h5])]
    rw [step_award stdBadgeDb 1000 _
      ⟨500, "icon", "Icon", 25000, 5000⟩ _ (by norm_num) hm4
      (by simp [awardMilestone_badges, h6])]
    rw [step_award stdBadgeDb 1000 _
      ⟨1000, "titan", "Titan", 50000, 10000⟩ _ (by norm_num) hm5
      (by simp [awardMilestone_badges, h7])]
    rw [step_skip_below stdBadgeDb 1000 _
      ⟨2500, "warlord", "Warlord", 100000, 25000⟩ (by norm_num)]
    rw [step_skip_below stdBadgeDb 1000 _
      ⟨5000, "emperor", "Emperor", 250000, 50000⟩ (by norm_num)]
    rw [step_skip_below stdBadgeDb 1000 _
      ⟨10000, "godlike", "Godlike", 1000000, 100000⟩ (by norm_num)]
  have hbadges : (checkReferralBadges stdBadgeDb u).badges =
      u.badges ++ [3, 4, 5, 6, 7] := by
    rw [hrun]
    simp [awardMilestone_badges]
  have htotal : (checkReferralBadges stdBadgeDb u).referralStats.totalReferrals
      = 1000 := by
    rw [hrun]
    simp [awardMilestone_totalReferrals, ht]
  refine ⟨hbadges, ?_⟩
  exact checkReferralBadges_fixpoint (checkReferralBadges stdBadgeDb u) htotal
    (by rw [hbadges]; simp) (by rw [hbadges]; simp) (by rw [hbadges]; simp)
    (by rw [hbadges]; simp) (by rw [hbadges]; simp)

/-- Witness for C1: `sampleUser` fast-forwarded to 1000 referrals with no
badges receives exactly the five catch-up badges, and the second pass is a
fixpoint. -/
theorem checkReferralBadges_catchup_witness :
    (checkReferralBadges stdBadgeDb
        { sampleUser with referralStats := ⟨1000, 1000, 0, 0, 0⟩ }).badges =
      [3, 4, 5, 6, 7] ∧
    checkReferralBadges stdBadgeDb
        (checkReferralBadges stdBadgeDb
          { sampleUser with referralStats := ⟨1000, 1000, 0, 0, 0⟩ }) =
      checkReferralBadges stdBadgeDb
        { sampleUser with referralStats := ⟨1000, 1000, 0, 0, 0⟩ } := by
  have h := checkReferralBadges_catchup
    { sampleUser with referralStats := ⟨1000, 1000, 0, 0, 0⟩ }
    rfl (by decide) (by decide) (by decide) (by decide) (by decide)
  exact ⟨by simpa [sampleUser] using h.1, h.2⟩

/-- Below the first threshold (5 referrals) the milestone check awards
nothing. -/
theorem checkReferralBadges_below_first (db : List Badge) (u : User)
    (h : u.referralStats.totalReferrals < 5) :
    checkReferralBadges db u = u := by
  unfold checkReferralBadges
  simp only [referralBadges, List.foldl]
  rw [step_skip_below db u.referralStats.totalReferrals u
    ⟨5, "recruiter", "Recruiter", 500, 100⟩
    (show ¬ (5:Nat) ≤ u.referralStats.totalReferrals by omega)]
  rw [step_skip_below db u.referralStats.totalReferrals u
    ⟨25, "ambassador", "Ambassador", 2500, 500⟩
    (show ¬ (25:Nat) ≤ u.referralStats.totalReferrals by omega)]
  rw [step_skip_below db u.referralStats.totalReferrals u
    ⟨100, "legend", "Legend", 10000, 2000⟩
    (show ¬ (100:Nat) ≤ u.referralStats.totalReferrals by omega)]
  rw [step_skip_below db u.referralStats.totalReferrals u
    ⟨500, "icon", "Icon", 25000, 5000⟩
    (show ¬ (500:Nat) ≤ u.referralStats.totalReferrals by omega)]
  rw [step_skip_below db u.referralStats.totalReferrals u
    ⟨1000, "titan", "Titan", 50000, 10000⟩
    (show ¬ (1000:Nat) ≤ u.referralStats.totalReferrals by omega)]
  rw [step_skip_below db u.referralStats.totalReferrals u
    ⟨2500, "warlord", "Warlord", 100000, 25000⟩
    (show ¬ (2500:Nat) ≤ u.referralStats.totalReferrals by omega)]
  rw [step_skip_below db u.referralStats.totalReferrals u
    ⟨5000, "emperor", "Emperor", 250000, 50000⟩
    (show ¬ (5000:Nat) ≤ u.referralStats.totalReferrals by omega)]
  rw [step_skip_below db u.referralStats.totalReferrals u
    ⟨10000, "godlike", "Godlike", 1000000, 100000⟩
    (show ¬ (10000:Nat) ≤ u.referralStats.totalReferrals by omega)]

/-- CLAIM C5: when fresh user `b` registers with referrer `a`'s valid code,
`b` ends with 50 XP and 25 credits carried by a single `signup_bonus` history
entry, and `a` gains 100 XP and 50 credits with a `referral` history entry,
reaches `totalReferrals = 1`, and records exactly one `referrals` entry for
`b` with `rewardClaimed = true`. -/
theorem register_referral_rewards (a b : User) (code : String)
    (hbx : b.xp = 0) (hbc : b.credits = 0) (hbh : b.creditHistory = [])
    (har : a.referrals = []) (hat : a.referralStats.totalReferrals = 0) :
    ((registerWithReferral stdBadgeDb a b code).2.xp = 50 ∧
     (registerWithReferral stdBadgeDb a b code).2.credits = 25 ∧
     (registerWithReferral stdBadgeDb a b code).2.creditHistory =
       [⟨25, "earned", "signup_bonus", "Referral signup bonus", none⟩]) ∧
    ((registerWithReferral stdBadgeDb a b code).1.xp = a.xp + 100 ∧
     (registerWithReferral stdBadgeDb a b code).1.credits = a.credits + 50 ∧
     (registerWithReferral stdBadgeDb a b code).1.creditHistory =
       a.creditHistory ++
         [⟨50, "earned", "referral", "Referred " ++ b.username, none⟩] ∧
     (registerWithReferral stdBadgeDb a b code).1.referralStats.totalReferrals
       = 1 ∧
     (registerWithReferral stdBadgeDb a b code).1.referrals =
       [⟨b.uid, code, true⟩]) := by
  have hany : a.referrals.any (fun r => r.user == b.uid) = false := by
    simp [har]
  have h1 : (addCredits 50 "referral" ("Referred " ++ b.username) none
      (addXP 100 (addReferral b.uid code a))).referralStats.totalReferrals
      = 1 := by
    simp [addCredits, addXP, addReferral, hany, hat]
  simp only [registerWithReferral]
  rw [checkReferralBadges_below_first stdBadgeDb _ (by rw [h1]; norm_num)]
  refine ⟨⟨?_, ?_, ?_⟩, ?_, ?_, ?_, h1, ?_⟩ <;>
    simp [addCredits, addXP, addReferral, hany, har, hbx, hbc, hbh]

/-- Referrer for the C5 witness: fresh, no referrals, 7 credits, 11 xp. -/
def aliceU : User :=
  { sampleUser with
    uid := 20, username := "alice", xp := 11, credits := 7,
    referrals := [], referralStats := ⟨0, 0, 0, 0, 0⟩ }

/-- Referee for the C5 witness: entirely fresh. -/
def bobU : User :=
  { sampleUser with
    uid := 21, username := "bob", xp := 0, credits := 0,
    creditHistory := [] }

/-- Witness for C5 at the fresh users `aliceU` (referrer) and `bobU`. -/
theorem register_referral_rewards_witness :
    ((registerWithReferral stdBadgeDb aliceU bobU "VYNN-AAAA").2.xp = 50 ∧
     (registerWithReferral stdBadgeDb aliceU bobU "VYNN-AAAA").2.credits = 25 ∧
     (registerWithReferral stdBadgeDb aliceU bobU "VYNN-AAAA").2.creditHistory =
       [⟨25, "earned", "signup_bonus", "Referral signup bonus", none⟩]) ∧
    ((registerWithReferral stdBadgeDb aliceU bobU "VYNN-AAAA").1.xp =
       aliceU.xp + 100 ∧
     (registerWithReferral stdBadgeDb aliceU bobU "VYNN-AAAA").1.credits =
       aliceU.credits + 50 ∧
     (registerWithReferral stdBadgeDb aliceU bobU "VYNN-AAAA").1.creditHistory =
       aliceU.creditHistory ++
         [⟨50, "earned", "referral", "Referred " ++ bobU.username, none⟩] ∧
     (registerWithReferral stdBadgeDb aliceU bobU
         "VYNN-AAAA").1.referralStats.totalReferrals = 1 ∧
     (registerWithReferral stdBadgeDb aliceU bobU "VYNN-AAAA").1.referrals =
       [⟨bobU.uid, "VYNN-AAAA", true⟩]) :=
  register_referral_rewards aliceU bobU "VYNN-AAAA" (by decide) (by decide)
    (by decide) (by decide) (by decide)

/-! ### Badge sync lemmas (C8) -/

theorem syncBadgesCore_mem_member (mb bb : Nat) (hne : mb ≠ bb)
    (mi : MemberInfo) (l : List Nat) :
    (mb ∈ syncBadgesCore (some mb) (some bb) mi l ↔ mi.is_member = true) := by
  obtain ⟨mem, boost⟩ := mi
  cases mem <;> cases boost <;>
    by_cases h1 : mb ∈ l <;> by_cases h2 : bb ∈ l <;>
    simp [syncBadgesCore, h1, h2, hne, Ne.symm hne, List.mem_append,
      List.mem_filter]

theorem syncBadgesCore_mem_booster (mb bb : Nat) (hne : mb ≠ bb)
    (mi : MemberInfo) (l : List Nat) :
    (bb ∈ syncBadgesCore (some mb) (some bb) mi l ↔ mi.is_booster = true) := by
  obtain ⟨mem, boost⟩ := mi
  cases mem <;> cases boost <;>
    by_cases h1 : mb ∈ l <;> by_cases h2 : bb ∈ l <;>
    simp [syncBadgesCore, h1, h2, hne, Ne.symm hne, List.mem_append,
      List.mem_filter]

theorem syncBadgesCore_mem_other (mb bb : Nat) (hne : mb ≠ bb)
    (mi : MemberInfo) (l : List Nat) (x : Nat) (hxm : x ≠ mb) (hxb : x ≠ bb) :
    (x ∈ syncBadgesCore (some mb) (some bb) mi l ↔ x ∈ l) := by
  obtain ⟨mem, boost⟩ := mi
  cases mem <;> cases boost <;>
    by_cases h1 : mb ∈ l <;> by_cases h2 : bb ∈ l <;>
    simp [syncBadgesCore, h1, h2, hne, Ne.symm hne, hxm, hxb,
      List.mem_append, List.mem_filter]

/-- With a linked Discord id and fetched member info, the sync rewrites only
the badge list, through `syncBadgesCore`. -/
theorem syncUserDiscordBadges_some (mb bb : Option Nat) (mi : MemberInfo)
    (u : User) (d : Nat) (hd : u.discordId = some d) :
    syncUserDiscordBadges mb bb (some mi) u =
      { u with badges := syncBadgesCore mb bb mi u.badges } := by
  simp only [syncUserDiscordBadges, hd]

/-- CLAIM C8: for a user with a linked Discord id and the two distinct
system badges seeded, one sync makes membership of the member (resp.
booster) badge equal to the `is_member` (resp. `is_booster`) flag while
leaving every other badge alone; in the sequence `(member, no-boost)` then
`(no-member, no-boost)` the member badge ends absent and the booster badge
is never added; and without a linked Discord id the sync is a no-op. -/
theorem syncUserDiscordBadges_reconciles (mb bb : Nat) (hne : mb ≠ bb)
    (u : User) (d : Nat) (hd : u.discordId = some d) :
    (∀ mi : MemberInfo,
      (mb ∈ (syncUserDiscordBadges (some mb) (some bb) (some mi) u).badges ↔
        mi.is_member = true) ∧
      (bb ∈ (syncUserDiscordBadges (some mb) (some bb) (some mi) u).badges ↔
        mi.is_booster = true) ∧
      (∀ x, x ≠ mb → x ≠ bb →
        (x ∈ (syncUserDiscordBadges (some mb) (some bb) (some mi) u).badges ↔
          x ∈ u.badges))) ∧
    (bb ∉ u.badges →
      bb ∉ (syncUserDiscordBadges (some mb) (some bb)
        (some ⟨true, false⟩) u).badges) ∧
    (mb ∉ (syncUserDiscordBadges (some mb) (some bb) (some ⟨false, false⟩)
        (syncUserDiscordBadges (some mb) (some bb) (some ⟨true, false⟩) u)).badges ∧
     bb ∉ (syncUserDiscordBadges (some mb) (some bb) (some ⟨false, false⟩)
        (syncUserDiscordBadges (some mb) (some bb) (some ⟨true, false⟩) u)).badges) ∧
    (∀ (mi : MemberInfo) (v : User), v.discordId = none →
      syncUserDiscordBadges (some mb) (some bb) (some mi) v = v) := by
  have hone : ∀ mi : MemberInfo,
      (mb ∈ (syncUserDiscordBadges (some mb) (some bb) (some mi) u).badges ↔
        mi.is_member = true) ∧
      (bb ∈ (syncUserDiscordBadges (some mb) (some bb) (some mi) u).badges ↔
        mi.is_booster = true) ∧
      (∀ x, x ≠ mb → x ≠ bb →
        (x ∈ (syncUserDiscordBadges (some mb) (some bb) (some mi) u).badges ↔
          x ∈ u.badges)) := by
    intro mi
    rw [syncUserDiscordBadges_some (some mb) (some bb) mi u d hd]
    exact ⟨syncBadgesCore_mem_member mb bb hne mi u.badges,
      syncBadgesCore_mem_booster mb bb hne mi u.badges,
      fun x hxm hxb => syncBadgesCore_mem_other mb bb hne mi u.badges x hxm hxb⟩
  have hd1 : (syncUserDiscordBadges (some mb) (some bb)
      (some ⟨true, false⟩) u).discordId = some d := by
    rw [syncUserDiscordBadges_some (some mb) (some bb) _ u d hd]
    exact hd
  have htwo := fun mi =>
    syncUserDiscordBadges_some (some mb) (some bb) mi
      (syncUserDiscordBadges (some mb) (some bb) (some ⟨true, false⟩) u) d hd1
  refine ⟨hone, ?_, ⟨?_, ?_⟩, ?_⟩
  · intro hbb
    rw [(hone ⟨true, false⟩).2.1]
    simp
  · rw [htwo ⟨false, false⟩]
    have := syncBadgesCore_mem_member mb bb hne ⟨false, false⟩
      (syncUserDiscordBadges (some mb) (some bb) (some ⟨true, false⟩) u).badges
    simp only [this]
    simp
  · rw [htwo ⟨false, false⟩]
    have := syncBadgesCore_mem_booster mb bb hne ⟨false, false⟩
      (syncUserDiscordBadges (some mb) (some bb) (some ⟨true, false⟩) u).badges
    simp only [this]
    simp
  · intro mi v hv
    simp only [syncUserDiscordBadges, hv]

/-- A user with a linked Discord id and a stray badge 99, for the C8
witness. -/
def discordUser : User :=
  { sampleUser with discordId := some 42, badges := [99] }

/-- Witness for C8: after syncing `discordUser` with `(member, no-boost)`
and then `(no-member, no-boost)`, neither Discord badge (ids 0 and 1) is
present, and a sync on `sampleUser` (no linked Discord id) is a no-op. -/
theorem syncUserDiscordBadges_reconciles_witness :
    0 ∉ (syncUserDiscordBadges (some 0) (some 1) (some ⟨false, false⟩)
        (syncUserDiscordBadges (some 0) (some 1) (some ⟨true, false⟩)
          discordUser)).badges ∧
    1 ∉ (syncUserDiscordBadges (some 0) (some 1) (some ⟨false, false⟩)
        (syncUserDiscordBadges (some 0) (some 1) (some ⟨true, false⟩)
          discordUser)).badges ∧
    syncUserDiscordBadges (some 0) (some 1) (some ⟨true, true⟩) sampleUser =
      sampleUser := by
  have h := syncUserDiscordBadges_reconciles 0 1 (by decide) discordUser 42 rfl
  exact ⟨h.2.2.1.1, h.2.2.1.2, h.2.2.2 ⟨true, true⟩ sampleUser rfl⟩

/-! ### Failure containment of the reward engine and badge sync (C9) -/

theorem step_skip_missing (db : List Badge) (total : Nat) (u : User)
    (m : Milestone) (hf : findBadge db m.badgeId = none) :
    checkReferralBadgesStep db total u m = u := by
  unfold checkReferralBadgesStep
  split
  · rw [hf]
  · rfl

theorem aux_cons_skip_below (lookup : String → Except String (Option Badge))
    (total : Nat) (m : Milestone) (rest : List Milestone) (u : User)
    (hc : ¬ m.count ≤ total) :
    checkReferralBadgesAux lookup total (m :: rest) u =
      checkReferralBadgesAux lookup total rest u := by
  simp only [checkReferralBadgesAux, if_neg hc]

theorem aux_cons_error (lookup : String → Except String (Option Badge))
    (total : Nat) (m : Milestone) (rest : List Milestone) (u : User)
    (e : String) (hc : m.count ≤ total)
    (he : lookup m.badgeId = Except.error e) :
    checkReferralBadgesAux lookup total (m :: rest) u = (u, some e) := by
  simp only [checkReferralBadgesAux, if_pos hc, he]

theorem aux_cons_missing (lookup : String → Except String (Option Badge))
    (total : Nat) (m : Milestone) (rest : List Milestone) (u : User)
    (hc : m.count ≤ total) (hl : lookup m.badgeId = Except.ok none) :
    checkReferralBadgesAux lookup total (m :: rest) u =
      checkReferralBadgesAux lookup total rest u := by
  simp only [checkReferralBadgesAux, if_pos hc, hl]

theorem aux_cons_held (lookup : String → Except String (Option Badge))
    (total : Nat) (m : Milestone) (rest : List Milestone) (u : User)
    (b : Badge) (hc : m.count ≤ total)
    (hl : lookup m.badgeId = Except.ok (some b)) (hmem : b.bid ∈ u.badges) :
    checkReferralBadgesAux lookup total (m :: rest) u =
      checkReferralBadgesAux lookup total rest u := by
  simp only [checkReferralBadgesAux, if_pos hc, hl, if_pos hmem]

theorem aux_cons_award (lookup : String → Except String (Option Badge))
    (total : Nat) (m : Milestone) (rest : List Milestone) (u : User)
    (b : Badge) (hc : m.count ≤ total)
    (hl : lookup m.badgeId = Except.ok (some b)) (hmem : b.bid ∉ u.badges) :
    checkReferralBadgesAux lookup total (m :: rest) u =
      checkReferralBadgesAux lookup total rest (awardMilestone m b.bid u) := by
  simp only [checkReferralBadgesAux, if_pos hc, hl, if_neg hmem]

/-- With an infallible lookup the guarded loop computes exactly the
error-free milestone fold. -/
theorem aux_eq_foldl (db : List Badge) (total : Nat) (ms : List Milestone)
    (u : User) :
    (checkReferralBadgesAux (fun s => Except.ok (findBadge db s)) total ms u).1
      = List.foldl (checkReferralBadgesStep db total) u ms := by
  induction ms generalizing u with
  | nil => rfl
  | cons m rest ih =>
    rw [List.foldl_cons]
    by_cases hc : m.count ≤ total
    · cases hf : findBadge db m.badgeId with
      | none =>
        rw [aux_cons_missing _ total m rest u hc (by rw [hf]), ih,
          step_skip_missing db total u m hf]
      | some b =>
        by_cases hmem : b.bid ∈ u.badges
        · rw [aux_cons_held _ total m rest u b hc (by rw [hf]) hmem, ih,
            step_skip_held db total u m b hf hmem]
        · rw [aux_cons_award _ total m rest u b hc (by rw [hf]) hmem, ih,
            step_award db total u m b hc hf hmem]
    · rw [aux_cons_skip_below _ total m rest u hc, ih,
        step_skip_below db total u m hc]

/-- The lookup oracle for the C9 failure scenario: the database throws on
the `legend` slug and answers normally otherwise. -/
def lookupFailLegend (s : String) : Except String (Option Badge) :=
  if s == "legend" then Except.error "db down"
  else Except.ok (findBadge stdBadgeDb s)

/-- CLAIM C9: the reward engine's `try/catch` contains failures at its own
boundary — with an infallible lookup the caught runner equals the plain
check (callers never see a difference, let alone an exception), and when the
lookup throws midway (at `legend`, for a user at 1000 referrals) the caller
still receives a state in which the awards committed before the failure
(Recruiter and Ambassador: badges, 3000 XP, 600 credits) are retained and
nothing later is applied; likewise a badge-fetch error inside
`syncUserDiscordBadges` is caught before any mutation, returning the user
unchanged. -/
theorem rewardEngine_failures_contained (u : User)
    (ht : u.referralStats.totalReferrals = 1000)
    (h3 : 3 ∉ u.badges) (h4 : 4 ∉ u.badges) :
    (∀ (db : List Badge) (v : User),
      checkReferralBadgesCaught (fun s => Except.ok (findBadge db s)) v =
        checkReferralBadges db v) ∧
    ((checkReferralBadgesCaught lookupFailLegend u).badges =
        u.badges ++ [3, 4] ∧
     (checkReferralBadgesCaught lookupFailLegend u).xp = u.xp + 3000 ∧
     (checkReferralBadgesCaught lookupFailLegend u).credits =
        u.credits + 600) ∧
    (∀ (e : String) (mio : Option MemberInfo) (v : User),
      syncUserDiscordBadgesCaught (Except.error e) mio v = v) := by
  have hrun : checkReferralBadgesCaught lookupFailLegend u =
      awardMilestone ⟨25, "ambassador", "Ambassador", 2500, 500⟩ 4
        (awardMilestone ⟨5, "recruiter", "Recruiter", 500, 100⟩ 3 u) := by
    unfold checkReferralBadgesCaught
    rw [ht]
    simp only [referralBadges]
    rw [aux_cons_award lookupFailLegend 1000
      ⟨5, "recruiter", "Recruiter", 500, 100⟩ _ u
      ⟨3, "Recruiter", "recruiter", "referral_recruiter"⟩
      (by norm_num) rfl h3]
    rw [aux_cons_award lookupFailLegend 1000
      ⟨25, "ambassador", "Ambassador", 2500, 500⟩ _ _
      ⟨4, "Ambassador", "ambassador", "referral_ambassador"⟩
      (by norm_num) rfl (by simp [awardMilestone_badges, h4])]
    rw [aux_cons_error lookupFailLegend 1000
      ⟨100, "legend", "Legend", 10000, 2000⟩ _ _ "db down"
      (by norm_num) rfl]
  refine ⟨?_, ⟨?_, ?_, ?_⟩, ?_⟩
  · intro db v
    unfold checkReferralBadgesCaught checkReferralBadges
    exact aux_eq_foldl db v.referralStats.totalReferrals referralBadges v
  · rw [hrun]
    simp [awardMilestone_badges]
  · rw [hrun]
    rw [awardMilestone_xp _ 4 _ (by norm_num),
      awardMilestone_xp _ 3 _ (by norm_num)]
    norm_num
  · rw [hrun]
    rw [awardMilestone_credits _ 4 _ (by norm_num),
      awardMilestone_credits _ 3 _ (by norm_num)]
    norm_num
  · intro e mio v
    unfold syncUserDiscordBadgesCaught
    split
    · rfl
    · split
      · rfl
      · rfl

/-- Witness for C9: `sampleUser` at 1000 referrals keeps the Recruiter and
Ambassador awards committed before the `legend` lookup failure, an
infallible run on `sampleUser` matches the plain check, and a failing badge
fetch leaves `discordUser` untouched. -/
theorem rewardEngine_failures_contained_witness :
    checkReferralBadgesCaught (fun s => Except.ok (findBadge stdBadgeDb s))
        sampleUser = checkReferralBadges stdBadgeDb sampleUser ∧
    (checkReferralBadgesCaught lookupFailLegend
        { sampleUser with referralStats := ⟨1000, 1000, 0, 0, 0⟩ }).badges =
      ({ sampleUser with referralStats := ⟨1000, 1000, 0, 0, 0⟩ } : User).badges
        ++ [3, 4] ∧
    syncUserDiscordBadgesCaught (Except.error "boom") (some ⟨true, true⟩)
        discordUser = discordUser := by
  have h := rewardEngine_failures_contained
    { sampleUser with referralStats := ⟨1000, 1000, 0, 0, 0⟩ }
    rfl (by decide) (by decide)
  exact ⟨h.1 stdBadgeDb sampleUser, h.2.1.1,
    h.2.2 "boom" (some ⟨true, true⟩) discordUser⟩

end Vynn
